import Mathlib

set_option linter.unusedVariables false

/-!
Shallow embedding of src/backend/server.js.

The embedding covers callGeminiAPI (the retry loop at lines 40..59 and the
response shaper at lines 65..84) and the POST /api/chat request handler
(lines 126..150). The upstream is modelled as a function from the zero-based
attempt index to the outcome of the fetch call at that attempt, and the
Math.random jitter draws as a function from the attempt index to a rational
number. JS truthiness of the relevant values is modelled explicitly: an
absent field and the empty string are both falsy.
-/

/-- Subset of JSON values, enough to express JS truthiness of the prompt
field of the request body. -/
inductive JsVal where
  | jstr (s : String)
  | jnum (q : ℚ)
  | jbool (b : Bool)
  | jnull
deriving DecidableEq, Repr

/-- JS truthiness of a JsVal: the empty string, zero, false and null are
falsy; every other value of the subset is truthy. -/
def truthyJs : JsVal → Bool
  | .jstr s => s ≠ ""
  | .jnum q => q ≠ 0
  | .jbool b => b
  | .jnull => false

/-- JS truthiness of an optional string field: an absent field and the empty
string are falsy. -/
def truthyStr : Option String → Bool
  | some s => s ≠ ""
  | none => false

/-- One element of content.parts; the text field may be absent. -/
structure TextPart where
  text : Option String
deriving DecidableEq, Repr

/-- candidate.content; the parts array may be absent. -/
structure MsgContent where
  parts : Option (List TextPart)
deriving DecidableEq, Repr

/-- attribution.web, with optional uri and title fields. -/
structure WebCitation where
  uri : Option String
  title : Option String
deriving DecidableEq, Repr

/-- One grounding attribution; the web sub-object may be absent. -/
structure Attribution where
  web : Option WebCitation
deriving DecidableEq, Repr

/-- candidate.groundingMetadata; the attributions array may be absent. -/
structure GroundingMeta where
  groundingAttributions : Option (List Attribution)
deriving DecidableEq, Repr

/-- One candidate of the parsed upstream response body. -/
structure Candidate where
  content : Option MsgContent
  groundingMetadata : Option GroundingMeta
deriving DecidableEq, Repr

/-- The parsed upstream response body; the candidates array may be absent. -/
structure UpstreamBody where
  candidates : Option (List Candidate)
deriving DecidableEq, Repr

/-- A source record as built by the shaper at lines 76..79: uri and title may
still be absent here; the filter at line 80 keeps only records on which both
fields are truthy. -/
structure RawSource where
  uri : Option String
  title : Option String
deriving DecidableEq, Repr

/-- The Chat Result envelope returned to the client at line 84. -/
structure ChatResult where
  text : String
  sources : List RawSource
deriving DecidableEq, Repr

/-- The fixed fallback sentence assigned to botText at line 68. -/
def fallbackText : String := "I encountered an error trying to process that request."

/-- Line 67: the optional chaining result.candidates at index 0. -/
def firstCandidate (r : UpstreamBody) : Option Candidate :=
  r.candidates.bind List.head?

/-- Line 71: the optional chaining candidate.content, parts, index 0, text. -/
def firstPartText (c : Candidate) : Option String :=
  ((c.content.bind MsgContent.parts).bind List.head?).bind TextPart.text

/-- Lines 76..79: the map building a record with uri taken from the web
sub-object uri and title taken from the web sub-object title, each absent if
the web sub-object or the field is absent. -/
def mapAttribution (a : Attribution) : RawSource :=
  ⟨a.web.bind WebCitation.uri, a.web.bind WebCitation.title⟩

/-- Lines 73..81: the sources extraction performed when the candidate text is
truthy. An absent groundingMetadata object or an absent groundingAttributions
array yields the empty list; otherwise the attributions are mapped and the
records with a falsy uri or a falsy title are filtered out. -/
def candidateSources (c : Candidate) : List RawSource :=
  match c.groundingMetadata with
  | none => []
  | some gm =>
    match gm.groundingAttributions with
    | none => []
    | some attrs =>
      (attrs.map mapAttribution).filter (fun s => truthyStr s.uri && truthyStr s.title)

/-- The response shaper at lines 67..84: botText defaults to the fallback
sentence and sources defaults to the empty list; both are replaced only when
the first candidate exists and its first part text is truthy, that is
present and non-empty. -/
def shapeResponse (result : UpstreamBody) : ChatResult :=
  match firstCandidate result with
  | none => ⟨fallbackText, []⟩
  | some c =>
    match firstPartText c with
    | none => ⟨fallbackText, []⟩
    | some t => if t ≠ "" then ⟨t, candidateSources c⟩ else ⟨fallbackText, []⟩

/-- Outcome of one fetch attempt: a settled response carrying status,
statusText and the parsed body, or a transport-level exception carrying a
message. -/
inductive FetchOutcome where
  | resp (status : ℕ) (statusText : String) (body : UpstreamBody)
  | exn (msg : String)
deriving DecidableEq, Repr

/-- The ok field of a fetch response: status in the range 200..299. -/
def respOk (status : ℕ) : Bool := 200 ≤ status && status < 300

/-- Line 37: MAX_RETRIES. -/
def MAX_RETRIES : ℕ := 5

/-- Line 51: the backoff delay computed on a 429 with attempts remaining,
Math.pow(2, i) * 1000 + Math.random() * 1000, with the random draw given as
the rational rand. -/
def delayMs (i : ℕ) (rand : ℚ) : ℚ := 2 ^ i * 1000 + rand * 1000

/-- How the retry loop ended: broke carries the response on which the loop
did break; threw carries the message of the error leaving the loop; finished
is the case in which the loop condition became false, carrying the final
value of the response variable. Every constructor also carries the number of
fetch calls made and the list of backoff delays awaited. -/
inductive LoopOutcome where
  | broke (status : ℕ) (statusText : String) (body : UpstreamBody)
      (calls : ℕ) (delays : List ℚ)
  | threw (msg : String) (calls : ℕ) (delays : List ℚ)
  | finished (respVar : Option (ℕ × String × UpstreamBody))
      (calls : ℕ) (delays : List ℚ)
deriving DecidableEq, Repr

/-- The for loop at lines 40..59. beh gives the fetch outcome at each
zero-based attempt index and rand the Math.random draw there; respVar is the
current value of the response variable, updated only when fetch settles;
calls counts the fetch calls made so far and delays lists the backoff delays
awaited so far. Any error thrown inside the try block, including the
External API error thrown at line 54 for a non-ok status that is not being
retried, is caught by the catch block at line 56 and rethrown only when the
attempt index equals MAX_RETRIES - 1. -/
def attemptLoop (beh : ℕ → FetchOutcome) (rand : ℕ → ℚ) :
    ℕ → ℕ → Option (ℕ × String × UpstreamBody) → ℕ → List ℚ → LoopOutcome
  | _, 0, respVar, calls, delays => .finished respVar calls delays
  | i, fuel + 1, respVar, calls, delays =>
    match beh i with
    | .resp s st b =>
      if respOk s then
        .broke s st b (calls + 1) delays
      else if s = 429 ∧ i < MAX_RETRIES - 1 then
        attemptLoop beh rand (i + 1) fuel (some (s, st, b)) (calls + 1)
          (delays ++ [delayMs i (rand i)])
      else if i = MAX_RETRIES - 1 then
        .threw ("External API error: " ++ toString s ++ " " ++ st) (calls + 1) delays
      else
        attemptLoop beh rand (i + 1) fuel (some (s, st, b)) (calls + 1) delays
    | .exn m =>
      if i = MAX_RETRIES - 1 then .threw m (calls + 1) delays
      else attemptLoop beh rand (i + 1) fuel respVar (calls + 1) delays

/-- Line 27: the static system instruction string. -/
def systemPromptText : String := "You are a friendly, concise, and highly informative assistant. Your responses should be based on real-time information when possible, which you will obtain using the Google Search tool. Your goal is to provide accurate and helpful answers."

/-- Lines 29..35: the request payload, one user turn holding the prompt, the
google search tool flag, and the system instruction. -/
structure RequestPayload where
  userText : JsVal
  googleSearchTool : Bool
  systemText : String
deriving DecidableEq, Repr

/-- Construction of the request payload from the user prompt. -/
def buildPayload (userPrompt : JsVal) : RequestPayload :=
  ⟨userPrompt, true, systemPromptText⟩

/-- Result of callGeminiAPI: the returned Chat Result or the message of the
thrown error, together with the number of outbound fetch calls made and the
backoff delays awaited. -/
structure CallOutcome where
  result : Except String ChatResult
  calls : ℕ
  delays : List ℚ
deriving Repr

/-- callGeminiAPI at lines 22..85. apiKey is the GEMINI_API_KEY environment
variable, none when absent; line 23 checks it for JS truthiness, so the call
throws before any fetch when the key is absent or empty. After the loop, the
null check at line 61 maps to the finished case with an empty response
variable; in the finished case with a settled response the code would go on
to parse that response, which the model mirrors. -/
def callGeminiAPI (apiKey : Option String) (userPrompt : JsVal)
    (beh : ℕ → FetchOutcome) (rand : ℕ → ℚ) : CallOutcome :=
  if truthyStr apiKey = false then
    ⟨.error "Server API Key is not configured.", 0, []⟩
  else
    let payload := buildPayload userPrompt
    match attemptLoop beh rand 0 MAX_RETRIES none 0 [] with
    | .broke _ _ b calls delays => ⟨.ok (shapeResponse b), calls, delays⟩
    | .threw m calls delays => ⟨.error m, calls, delays⟩
    | .finished respVar calls delays =>
      match respVar with
      | none => ⟨.error "Failed to get a response after multiple retries.", calls, delays⟩
      | some (_, _, b) => ⟨.ok (shapeResponse b), calls, delays⟩

/-- Body shapes written by the /api/chat handler. -/
inductive ApiBody where
  | errorOnly (error : String)
  | errorWithMessage (error message : String)
  | chat (result : ChatResult)
deriving DecidableEq, Repr

/-- HTTP status plus JSON body plus the number of outbound fetch calls made
while handling the request. -/
structure HandlerResult where
  status : ℕ
  body : ApiBody
  fetchCalls : ℕ
deriving DecidableEq, Repr

/-- The parsed JSON body of a POST /api/chat request; the prompt field may be
absent. -/
structure ChatRequestBody where
  prompt : Option JsVal
deriving DecidableEq, Repr

/-- The POST /api/chat handler at lines 126..150, for a request whose body
parsed successfully to data: a falsy prompt is answered with 400 before
callGeminiAPI is invoked; an error thrown by callGeminiAPI is caught and
answered with 500, its message prepended with the fixed Internal Server
Error string; a Chat Result is answered with 200. -/
def handleChat (apiKey : Option String) (data : ChatRequestBody)
    (beh : ℕ → FetchOutcome) (rand : ℕ → ℚ) : HandlerResult :=
  match data.prompt with
  | none => ⟨400, .errorOnly "Missing user prompt", 0⟩
  | some p =>
    if truthyJs p = false then
      ⟨400, .errorOnly "Missing user prompt", 0⟩
    else
      let out := callGeminiAPI apiKey p beh rand
      match out.result with
      | .ok r => ⟨200, .chat r, out.calls⟩
      | .error m =>
        ⟨500, .errorWithMessage ("Internal Server Error: " ++ m)
          "Check server logs for details.", out.calls⟩

/-- Empty upstream body, used where the body content does not matter. -/
def nilBody : UpstreamBody := ⟨none⟩

/-- Upstream body with one candidate whose first part text is the empty
string. -/
def emptyTextBody : UpstreamBody :=
  ⟨some [⟨some ⟨some [⟨some ""⟩]⟩, none⟩]⟩

/-- A well formed attribution: uri and title both present and non-empty. -/
def goodAttr : Attribution := ⟨some ⟨some "https://a.example", some "Example A"⟩⟩

/-- An attribution missing its title. -/
def noTitleAttr : Attribution := ⟨some ⟨some "https://b.example", none⟩⟩

/-- Upstream body whose candidate has truthy text, one well formed
attribution and one attribution missing its title. -/
def mixedSourcesBody : UpstreamBody :=
  ⟨some [⟨some ⟨some [⟨some "answer"⟩]⟩, some ⟨some [goodAttr, noTitleAttr]⟩⟩]⟩

/-- Candidate with no first part text but a well formed attribution. -/
def noTextCandidate : Candidate :=
  ⟨some ⟨some [⟨none⟩]⟩, some ⟨some [goodAttr]⟩⟩

/-- Upstream body holding only noTextCandidate. -/
def noTextBody : UpstreamBody := ⟨some [noTextCandidate]⟩

/-- Reading of the text extraction following the spec wording literally: the
first text part of the first candidate when present, the fallback sentence
otherwise. Stated to compare with shapeResponse, which additionally requires
the text to be non-empty. -/
def specShapedTextOf (r : UpstreamBody) : String :=
  match (firstCandidate r).bind firstPartText with
  | some t => t
  | none => fallbackText

/-- Upstream behaviour returning HTTP 403 Forbidden on every attempt. -/
def beh403 : ℕ → FetchOutcome := fun _ => .resp 403 "Forbidden" nilBody

/-- Upstream behaviour returning HTTP 429 on every attempt. -/
def beh429 : ℕ → FetchOutcome := fun _ => .resp 429 "Too Many Requests" nilBody

/-- Jitter source drawing zero at every attempt. -/
def zeroRand : ℕ → ℚ := fun _ => 0

/-- Helper: on a constant non-ok non-429 status the External API error thrown
inside the try block is caught and swallowed on every attempt before the
last and rethrown on the last, so the loop throws it after making one fetch
call per remaining attempt and awaiting no delay. -/
theorem attemptLoop_const_bad (s : ℕ) (st : String) (b : UpstreamBody)
    (rand : ℕ → ℚ) (hok : respOk s = false) (h429 : s ≠ 429) :
    ∀ fuel i rv calls delays, 0 < fuel → i + fuel = MAX_RETRIES →
      attemptLoop (fun _ => .resp s st b) rand i fuel rv calls delays =
        .threw ("External API error: " ++ toString s ++ " " ++ st)
          (calls + fuel) delays := by
  intro fuel
  induction fuel with
  | zero => intro i rv c d hpos hsum; omega
  | succ n ih =>
    intro i rv c d hpos hsum
    have h5 : MAX_RETRIES = 5 := rfl
    simp only [attemptLoop]
    rw [if_neg (by simp [hok]), if_neg (by simp [h429])]
    by_cases hi : i = MAX_RETRIES - 1
    · rw [if_pos hi]
      have hn : n = 0 := by omega
      subst hn
      rfl
    · rw [if_neg hi]
      have hc : c + 1 + n = c + (n + 1) := by omega
      rw [ih (i + 1) (some (s, st, b)) (c + 1) d (by omega) (by omega), hc]

/-- Helper: for every behaviour and every jitter source, a run of the loop
with a positive number of remaining attempts that ends at MAX_RETRIES either
breaks on a response with ok status or throws; it never runs out of
attempts with neither. -/
theorem attemptLoop_no_finish (beh : ℕ → FetchOutcome) (rand : ℕ → ℚ) :
    ∀ fuel i rv calls delays, 0 < fuel → i + fuel = MAX_RETRIES →
      (∃ s st b c d, attemptLoop beh rand i fuel rv calls delays = .broke s st b c d ∧
          respOk s = true) ∨
      (∃ m c d, attemptLoop beh rand i fuel rv calls delays = .threw m c d) := by
  intro fuel
  induction fuel with
  | zero => intro i rv c d hpos hsum; omega
  | succ n ih =>
    intro i rv c d hpos hsum
    have h5 : MAX_RETRIES = 5 := rfl
    rcases hb : beh i with ⟨s, st, b⟩ | m
    · by_cases hok : respOk s = true
      · left
        refine ⟨s, st, b, c + 1, d, ?_, hok⟩
        simp only [attemptLoop, hb, if_pos hok]
      · by_cases h429 : s = 429 ∧ i < MAX_RETRIES - 1
        · obtain ⟨h4a, h4b⟩ := h429
          have step : attemptLoop beh rand i (n + 1) rv c d =
              attemptLoop beh rand (i + 1) n (some (s, st, b)) (c + 1)
                (d ++ [delayMs i (rand i)]) := by
            simp only [attemptLoop, hb]
            rw [if_neg hok, if_pos ⟨h4a, h4b⟩]
          rw [step]
          exact ih (i + 1) _ _ _ (by omega) (by omega)
        · by_cases hi : i = MAX_RETRIES - 1
          · right
            refine ⟨"External API error: " ++ toString s ++ " " ++ st, c + 1, d, ?_⟩
            simp only [attemptLoop, hb]
            rw [if_neg hok, if_neg h429, if_pos hi]
          · have step : attemptLoop beh rand i (n + 1) rv c d =
                attemptLoop beh rand (i + 1) n (some (s, st, b)) (c + 1) d := by
              simp only [attemptLoop, hb]
              rw [if_neg hok, if_neg h429, if_neg hi]
            rw [step]
            exact ih (i + 1) _ _ _ (by omega) (by omega)
    · by_cases hi : i = MAX_RETRIES - 1
      · right
        exact ⟨m, c + 1, d, by simp only [attemptLoop, hb, if_pos hi]⟩
      · have step : attemptLoop beh rand i (n + 1) rv c d =
            attemptLoop beh rand (i + 1) n rv (c + 1) d := by
          simp only [attemptLoop, hb]
          rw [if_neg hi]
        rw [step]
        exact ih (i + 1) _ _ _ (by omega) (by omega)

/-- C1 counterexample: with HTTP 403 Forbidden on every attempt,
callGeminiAPI makes 5 outbound calls, not 1. The External API error thrown
inside the try block is caught by the catch block and swallowed on attempts
0 to 3, so the loop retries after a 403 and only the last attempt fails the
call. -/
theorem c1_counterexample :
    (callGeminiAPI (some "key") (.jstr "hi") beh403 zeroRand).calls = 5 ∧
    (callGeminiAPI (some "key") (.jstr "hi") beh403 zeroRand).calls ≠ 1 ∧
    (callGeminiAPI (some "key") (.jstr "hi") beh403 zeroRand).result =
      .error "External API error: 403 Forbidden" := by
  refine ⟨rfl, ?_, rfl⟩
  intro hcontra
  have h51 : (5 : ℕ) = 1 := by
    rw [← hcontra]
    rfl
  exact absurd h51 (by decide)

/-- C1 as amended: on a constant non-ok non-429 HTTP status the External API
error carrying the status code and reason is thrown on every attempt but
caught and swallowed until the last one, so callGeminiAPI fails with that
error only after exactly 5 outbound calls, with no backoff delay between
them. -/
theorem c1_amended (k : String) (hk : k ≠ "") (p : JsVal) (s : ℕ)
    (st : String) (b : UpstreamBody) (rand : ℕ → ℚ)
    (hok : respOk s = false) (h429 : s ≠ 429) :
    callGeminiAPI (some k) p (fun _ => .resp s st b) rand =
      ⟨.error ("External API error: " ++ toString s ++ " " ++ st), 5, []⟩ := by
  have hkey : ¬ (truthyStr (some k) = false) := by simp [truthyStr, hk]
  simp only [callGeminiAPI]
  rw [if_neg hkey,
    attemptLoop_const_bad s st b rand hok h429 MAX_RETRIES 0 none 0 [] (by decide)
      (Nat.zero_add _)]
  rfl

/-- Witness for c1_amended at status 403 Forbidden. -/
theorem c1_amended_witness :
    ("k" : String) ≠ "" ∧ respOk 403 = false ∧ (403 : ℕ) ≠ 429 ∧
    callGeminiAPI (some "k") (.jstr "hi") (fun _ => .resp 403 "Forbidden" nilBody) zeroRand =
      ⟨.error ("External API error: " ++ toString (403 : ℕ) ++ " " ++ "Forbidden"), 5, []⟩ :=
  ⟨by decide, by decide, by decide,
    c1_amended "k" (by decide) (.jstr "hi") 403 "Forbidden" nilBody zeroRand
      (by decide) (by decide)⟩

/-- C2 counterexample: with HTTP 429 on every attempt the call fails with the
External API error thrown on the final attempt, not with the post-loop
exhaustion message about multiple retries, and 5 outbound calls are made. -/
theorem c2_counterexample :
    (callGeminiAPI (some "key") (.jstr "hi") beh429 zeroRand).result =
      .error "External API error: 429 Too Many Requests" ∧
    (callGeminiAPI (some "key") (.jstr "hi") beh429 zeroRand).result ≠
      .error "Failed to get a response after multiple retries." ∧
    (callGeminiAPI (some "key") (.jstr "hi") beh429 zeroRand).calls = 5 := by
  have h : (callGeminiAPI (some "key") (.jstr "hi") beh429 zeroRand).result =
      .error "External API error: 429 Too Many Requests" := rfl
  refine ⟨h, ?_, rfl⟩
  rw [h]
  intro hcontra
  exact absurd (Except.error.inj hcontra) (by decide)

/-- C2 as amended: with HTTP 429 on every attempt callGeminiAPI makes exactly
5 outbound calls and then fails with the External API error carrying status
429 thrown on the final attempt; the post-loop exhaustion error is not
reached. -/
theorem c2_amended (k : String) (hk : k ≠ "") (p : JsVal) (st : String)
    (b : UpstreamBody) (rand : ℕ → ℚ) :
    (callGeminiAPI (some k) p (fun _ => .resp 429 st b) rand).result =
      .error ("External API error: 429 " ++ st) ∧
    (callGeminiAPI (some k) p (fun _ => .resp 429 st b) rand).calls = 5 := by
  have hkey : ¬ (truthyStr (some k) = false) := by simp [truthyStr, hk]
  constructor
  · simp only [callGeminiAPI]
    rw [if_neg hkey]
    rfl
  · simp only [callGeminiAPI]
    rw [if_neg hkey]
    rfl

/-- Witness for c2_amended with statusText Too Many Requests. -/
theorem c2_amended_witness :
    ("k" : String) ≠ "" ∧
    ((callGeminiAPI (some "k") (.jstr "hi")
        (fun _ => .resp 429 "Too Many Requests" nilBody) zeroRand).result =
      .error ("External API error: 429 " ++ "Too Many Requests") ∧
    (callGeminiAPI (some "k") (.jstr "hi")
        (fun _ => .resp 429 "Too Many Requests" nilBody) zeroRand).calls = 5) :=
  ⟨by decide, c2_amended "k" (by decide) (.jstr "hi") "Too Many Requests" nilBody zeroRand⟩

/-- C3: with HTTP 429 on attempts with zero-based indices 0 to 3 and HTTP 200
on the last attempt, callGeminiAPI makes exactly 5 outbound calls, stops
retrying on the success, and returns the shaped Chat Result of the success
body, after the four backoff delays. -/
theorem c3_retry_then_success (k : String) (hk : k ≠ "") (p : JsVal)
    (st st2 : String) (b429 bOk : UpstreamBody) (rand : ℕ → ℚ) :
    callGeminiAPI (some k) p
        (fun i => if i < 4 then .resp 429 st b429 else .resp 200 st2 bOk) rand =
      ⟨.ok (shapeResponse bOk), 5,
        [delayMs 0 (rand 0), delayMs 1 (rand 1), delayMs 2 (rand 2), delayMs 3 (rand 3)]⟩ := by
  have hkey : ¬ (truthyStr (some k) = false) := by simp [truthyStr, hk]
  simp only [callGeminiAPI]
  rw [if_neg hkey]
  rfl

/-- Witness for c3_retry_then_success on a concrete scenario. -/
theorem c3_witness :
    ("k" : String) ≠ "" ∧
    callGeminiAPI (some "k") (.jstr "hi")
        (fun i => if i < 4 then .resp 429 "Too Many Requests" nilBody
                  else .resp 200 "OK" mixedSourcesBody) zeroRand =
      ⟨.ok (shapeResponse mixedSourcesBody), 5,
        [delayMs 0 (zeroRand 0), delayMs 1 (zeroRand 1),
         delayMs 2 (zeroRand 2), delayMs 3 (zeroRand 3)]⟩ :=
  ⟨by decide,
    c3_retry_then_success "k" (by decide) (.jstr "hi") "Too Many Requests" "OK"
      nilBody mixedSourcesBody zeroRand⟩

/-- C4: every entry of the shaped sources list has both uri and title present
and non-empty; and on a body with one well formed attribution and one
attribution missing its title, the shaped sources list keeps exactly the
well formed one. -/
theorem c4_sources_wellformed :
    (∀ (r : UpstreamBody) (src : RawSource), src ∈ (shapeResponse r).sources →
        (∃ u, src.uri = some u ∧ u ≠ "") ∧ ∃ t, src.title = some t ∧ t ≠ "") ∧
    shapeResponse mixedSourcesBody =
      ⟨"answer", [⟨some "https://a.example", some "Example A"⟩]⟩ := by
  constructor
  · intro r src hs
    rcases hcand : firstCandidate r with _ | c
    · simp [shapeResponse, hcand] at hs
    · rcases htext : firstPartText c with _ | t
      · simp [shapeResponse, hcand, htext] at hs
      · by_cases ht : t = ""
        · simp [shapeResponse, hcand, htext, ht] at hs
        · simp only [shapeResponse, hcand, htext] at hs
          rw [if_pos ht] at hs
          rcases hgm : c.groundingMetadata with _ | gm
          · simp [candidateSources, hgm] at hs
          · rcases hga : gm.groundingAttributions with _ | attrs
            · simp [candidateSources, hgm, hga] at hs
            · simp only [candidateSources, hgm, hga] at hs
              have hmem := List.of_mem_filter hs
              rw [Bool.and_eq_true] at hmem
              obtain ⟨hu, htl⟩ := hmem
              rcases src with ⟨su, stl⟩
              constructor
              · cases su with
                | none => simp [truthyStr] at hu
                | some u => exact ⟨u, rfl, by simpa [truthyStr] using hu⟩
              · cases stl with
                | none => simp [truthyStr] at htl
                | some t2 => exact ⟨t2, rfl, by simpa [truthyStr] using htl⟩
  · rfl

/-- Witness for c4_sources_wellformed: the kept entry of mixedSourcesBody is
in the shaped sources list and both of its fields are present and
non-empty. -/
theorem c4_witness :
    (⟨some "https://a.example", some "Example A"⟩ : RawSource) ∈
        (shapeResponse mixedSourcesBody).sources ∧
    ((∃ u, (⟨some "https://a.example", some "Example A"⟩ : RawSource).uri = some u ∧ u ≠ "") ∧
      ∃ t, (⟨some "https://a.example", some "Example A"⟩ : RawSource).title = some t ∧ t ≠ "") := by
  have hm : (⟨some "https://a.example", some "Example A"⟩ : RawSource) ∈
      (shapeResponse mixedSourcesBody).sources := by decide
  exact ⟨hm, c4_sources_wellformed.1 mixedSourcesBody _ hm⟩

/-- C5: with no API key configured, a chat request with a truthy prompt is
answered with HTTP 500 and the error body built from the configuration error
message, with zero outbound fetch calls; and callGeminiAPI itself throws the
configuration error before any fetch call. -/
theorem c5_missing_key (beh : ℕ → FetchOutcome) (rand : ℕ → ℚ) (pv : JsVal)
    (hp : truthyJs pv = true) :
    handleChat none ⟨some pv⟩ beh rand =
      ⟨500, .errorWithMessage "Internal Server Error: Server API Key is not configured."
        "Check server logs for details.", 0⟩ ∧
    callGeminiAPI none pv beh rand = ⟨.error "Server API Key is not configured.", 0, []⟩ := by
  constructor
  · simp only [handleChat]
    rw [if_neg (by simp [hp])]
    rfl
  · rfl

/-- Witness for c5_missing_key at a concrete prompt. -/
theorem c5_witness :
    truthyJs (.jstr "hello") = true ∧
    handleChat none ⟨some (.jstr "hello")⟩ beh403 zeroRand =
      ⟨500, .errorWithMessage "Internal Server Error: Server API Key is not configured."
        "Check server logs for details.", 0⟩ :=
  ⟨by decide, (c5_missing_key beh403 zeroRand (.jstr "hello") (by decide)).1⟩

/-- C6: on the all-429 behaviour the backoff delays awaited are exactly
2 to the power of the zero-based attempt index times 1000 plus the jitter
drawn there times 1000, so the base delays are 1000, 2000, 4000 and 8000
milliseconds; and when each jitter draw lies in the half-open unit interval
the added jitter lies in the half-open interval from 0 to 1000. -/
theorem c6_backoff_schedule (k : String) (hk : k ≠ "") (p : JsVal)
    (st : String) (b : UpstreamBody) (rand : ℕ → ℚ)
    (hr : ∀ j, 0 ≤ rand j ∧ rand j < 1) :
    (callGeminiAPI (some k) p (fun _ => .resp 429 st b) rand).delays =
      [2 ^ 0 * 1000 + rand 0 * 1000, 2 ^ 1 * 1000 + rand 1 * 1000,
       2 ^ 2 * 1000 + rand 2 * 1000, 2 ^ 3 * 1000 + rand 3 * 1000] ∧
    (callGeminiAPI (some k) p (fun _ => .resp 429 st b) rand).delays =
      [1000 + rand 0 * 1000, 2000 + rand 1 * 1000,
       4000 + rand 2 * 1000, 8000 + rand 3 * 1000] ∧
    ∀ j, 0 ≤ rand j * 1000 ∧ rand j * 1000 < 1000 := by
  have hkey : ¬ (truthyStr (some k) = false) := by simp [truthyStr, hk]
  have h1 : (callGeminiAPI (some k) p (fun _ => .resp 429 st b) rand).delays =
      [2 ^ 0 * 1000 + rand 0 * 1000, 2 ^ 1 * 1000 + rand 1 * 1000,
       2 ^ 2 * 1000 + rand 2 * 1000, 2 ^ 3 * 1000 + rand 3 * 1000] := by
    simp only [callGeminiAPI]
    rw [if_neg hkey]
    rfl
  have h2 : ([2 ^ 0 * 1000 + rand 0 * 1000, 2 ^ 1 * 1000 + rand 1 * 1000,
      2 ^ 2 * 1000 + rand 2 * 1000, 2 ^ 3 * 1000 + rand 3 * 1000] : List ℚ) =
      [1000 + rand 0 * 1000, 2000 + rand 1 * 1000,
       4000 + rand 2 * 1000, 8000 + rand 3 * 1000] := by
    norm_num
  refine ⟨h1, h1.trans h2, fun j => ⟨?_, ?_⟩⟩
  · exact mul_nonneg (hr j).1 (by norm_num)
  · nlinarith [(hr j).1, (hr j).2]

/-- Witness for c6_backoff_schedule with the zero jitter source. -/
theorem c6_witness :
    ("k" : String) ≠ "" ∧ (∀ j : ℕ, 0 ≤ zeroRand j ∧ zeroRand j < 1) ∧
    (callGeminiAPI (some "k") (.jstr "hi")
        (fun _ => .resp 429 "Too Many Requests" nilBody) zeroRand).delays =
      [1000 + zeroRand 0 * 1000, 2000 + zeroRand 1 * 1000,
       4000 + zeroRand 2 * 1000, 8000 + zeroRand 3 * 1000] :=
  ⟨by decide, fun _ => ⟨le_refl 0, zero_lt_one⟩,
    (c6_backoff_schedule "k" (by decide) (.jstr "hi") "Too Many Requests" nilBody
      zeroRand (fun _ => ⟨le_refl 0, zero_lt_one⟩)).2.1⟩

/-- C7 counterexample: on a body whose first candidate carries the empty
string as its first text part, the text part is present, the spec reading of
the extraction returns the empty string, but shapeResponse returns the
fallback sentence, since the empty string is falsy in JS. -/
theorem c7_counterexample :
    (firstCandidate emptyTextBody).bind firstPartText = some "" ∧
    specShapedTextOf emptyTextBody = "" ∧
    (shapeResponse emptyTextBody).text = fallbackText ∧
    (shapeResponse emptyTextBody).text ≠ specShapedTextOf emptyTextBody := by
  refine ⟨rfl, rfl, rfl, ?_⟩
  decide

/-- C7 as amended: the shaped text is always a string and equals the first
text part of the first candidate when that part is present and non-empty,
and the fixed fallback sentence otherwise, including when the part is
present but empty. -/
theorem c7_amended (r : UpstreamBody) :
    (shapeResponse r).text =
      (match (firstCandidate r).bind firstPartText with
       | some t => if t = "" then fallbackText else t
       | none => fallbackText) := by
  rcases hc : firstCandidate r with _ | c
  · simp [shapeResponse, hc]
  · rcases h : firstPartText c with _ | t
    · simp [shapeResponse, hc, h]
    · by_cases ht : t = ""
      · simp [shapeResponse, hc, h, ht]
      · simp [shapeResponse, hc, h, ht]

/-- C8: for every upstream behaviour and every jitter source the retry loop
exits only by breaking on a response with ok status or by throwing; it never
completes all 5 iterations normally, hence the post-loop branch that fails
with the message about multiple retries when the response variable is still
null is unreachable. -/
theorem c8_loop_never_finishes (beh : ℕ → FetchOutcome) (rand : ℕ → ℚ) :
    ((∃ s st b calls delays,
        attemptLoop beh rand 0 MAX_RETRIES none 0 [] = .broke s st b calls delays ∧
        respOk s = true) ∨
      (∃ m calls delays,
        attemptLoop beh rand 0 MAX_RETRIES none 0 [] = .threw m calls delays)) ∧
    ∀ rv calls delays,
      attemptLoop beh rand 0 MAX_RETRIES none 0 [] ≠ .finished rv calls delays := by
  have h := attemptLoop_no_finish beh rand MAX_RETRIES 0 none 0 [] (by decide) (Nat.zero_add _)
  refine ⟨h, ?_⟩
  intro rv calls delays hfin
  rcases h with ⟨s, st, b, c, d, heq, _⟩ | ⟨m, c, d, heq⟩ <;>
    rw [heq] at hfin <;> exact LoopOutcome.noConfusion hfin

/-- Witness for c8_loop_never_finishes on the all-403 behaviour. -/
theorem c8_witness :
    attemptLoop beh403 zeroRand 0 MAX_RETRIES none 0 [] ≠ .finished none 5 [] :=
  (c8_loop_never_finishes beh403 zeroRand).2 none 5 []

/-- C9: when the first candidate exists but its first part text is falsy,
the shaped sources list is empty, whatever grounding attributions the
candidate carries. -/
theorem c9_no_text_no_sources (r : UpstreamBody) (c : Candidate)
    (hc : firstCandidate r = some c) (ht : truthyStr (firstPartText c) = false) :
    (shapeResponse r).sources = [] := by
  rcases h : firstPartText c with _ | t
  · simp [shapeResponse, hc, h]
  · rw [h] at ht
    have ht2 : t = "" := by simpa [truthyStr] using ht
    simp [shapeResponse, hc, h, ht2]

/-- Witness for c9_no_text_no_sources: a candidate with a well formed
attribution but no text yields an empty sources list. -/
theorem c9_witness :
    firstCandidate noTextBody = some noTextCandidate ∧
    truthyStr (firstPartText noTextCandidate) = false ∧
    (shapeResponse noTextBody).sources = [] :=
  ⟨rfl, rfl, c9_no_text_no_sources noTextBody noTextCandidate rfl rfl⟩

/-- C10: a POST /api/chat request whose prompt field is absent or holds any
falsy value is answered with HTTP 400 and the missing prompt error body,
with zero outbound fetch calls, exactly as if the prompt field were
absent. -/
theorem c10_falsy_prompt (key : Option String) (beh : ℕ → FetchOutcome)
    (rand : ℕ → ℚ) (p : Option JsVal)
    (h : ∀ v, p = some v → truthyJs v = false) :
    handleChat key ⟨p⟩ beh rand = ⟨400, .errorOnly "Missing user prompt", 0⟩ ∧
    handleChat key ⟨p⟩ beh rand = handleChat key ⟨none⟩ beh rand := by
  have h400 : handleChat key ⟨p⟩ beh rand = ⟨400, .errorOnly "Missing user prompt", 0⟩ := by
    rcases p with _ | v
    · rfl
    · have hv := h v rfl
      simp only [handleChat]
      rw [if_pos hv]
  exact ⟨h400, by rw [h400]; rfl⟩

/-- Witness for c10_falsy_prompt with the empty string prompt. -/
theorem c10_witness :
    handleChat (some "k") ⟨some (.jstr "")⟩ beh403 zeroRand =
      ⟨400, .errorOnly "Missing user prompt", 0⟩ ∧
    handleChat (some "k") ⟨some (.jstr "")⟩ beh403 zeroRand =
      handleChat (some "k") ⟨none⟩ beh403 zeroRand :=
  c10_falsy_prompt (some "k") beh403 zeroRand (some (.jstr ""))
    (fun v hv => Option.some.inj hv ▸ (rfl : truthyJs (JsVal.jstr "") = false))
